import Mathlib

/-!
Shallow embedding of `tpu/templates/tpu_gan_estimator/trainer_single.py`.

The script wires a tiny GAN into the TensorFlow estimator framework.  We
embed the graph-building calls symbolically: every framework call that
builds a graph node becomes a constructor of a tensor-expression AST, the
dataset pipeline becomes a pipeline AST, and the estimator/run-config
objects become records.  The functions `generator_fn`, `discriminator_fn`,
`model_fn`, `train_input_fn` and `main` below are direct translations of
the Python functions of the same names.
-/

set_option linter.unusedVariables false

namespace TpuGanTrainer

/-- INPUT_DIM = 5 from the script. -/
def INPUT_DIM : Nat := 5

/-- OUTPUT_DIM = 3 from the script. -/
def OUTPUT_DIM : Nat := 3

/-- Optimizer objects built by the script: `tf.train.RMSPropOptimizer(learning_rate)`
and the TPU wrapper `tf.contrib.tpu.CrossShardOptimizer(inner)`. -/
inductive Optimizer where
  | RMSProp (learning_rate : ℚ)
  | CrossShard (inner : Optimizer)
deriving DecidableEq, Repr

/-- Symbolic tensors / graph operations.  Each constructor is one of the
graph-building calls the script performs.  `var` is a de Bruijn loop
variable used to reify the `cond`/`body` lambdas handed to `while_loop`. -/
inductive TExpr where
  | var (idx : Nat)
  | globalStep
  | constI (n : Int)
  | constF (q : ℚ)
  | add (a b : TExpr)
  | less (a b : TExpr)
  | dense (input : TExpr) (units : Nat)
  | randomNormal (rows cols : Nat)
  | randomUniform (rows cols : Nat)
  | genLoss (dis_gen_outputs : TExpr) (add_summaries : Bool)
  | disLoss (dis_real_outputs dis_gen_outputs : TExpr) (add_summaries : Bool)
  | minimize (opt : Optimizer) (loss : TExpr)
  | whileLoop (tpuVariant : Bool) (condE : TExpr) (bodyEs : List TExpr) (inits : List TExpr)
  | assignAdd (target amount : TExpr)
  | group (ops : List TExpr)

/-- `generator_fn(generator_inputs)`: one dense layer with OUTPUT_DIM units. -/
def generator_fn (generator_inputs : TExpr) : TExpr :=
  TExpr.dense generator_inputs OUTPUT_DIM

/-- `discriminator_fn(data, generator_inputs)`: one dense layer with 1 unit on `data`. -/
def discriminator_fn (data generator_inputs : TExpr) : TExpr :=
  TExpr.dense data 1

/-- The fields of the TF-GAN `GANModel` tuple the script can observe. -/
structure GanModel where
  generator_inputs : TExpr
  generated_data : TExpr
  real_data : TExpr
  discriminator_real_outputs : TExpr
  discriminator_gen_outputs : TExpr

/-- `tf.contrib.gan.gan_model(generator_fn, discriminator_fn, real_data,
generator_inputs)`: the framework applies the generator to its inputs and
the discriminator to real and generated data. -/
def gan_model_call (g : TExpr → TExpr) (d : TExpr → TExpr → TExpr)
    (real_data generator_inputs : TExpr) : GanModel :=
  let generated_data := g generator_inputs
  { generator_inputs := generator_inputs
    generated_data := generated_data
    real_data := real_data
    discriminator_real_outputs := d real_data generator_inputs
    discriminator_gen_outputs := d generated_data generator_inputs }

/-- The TF-GAN `GANLoss` tuple. -/
structure GanLoss where
  generator_loss : TExpr
  discriminator_loss : TExpr

/-- `tf.contrib.gan.gan_loss(gan_model, add_summaries)`. -/
def gan_loss_call (m : GanModel) (add_summaries : Bool) : GanLoss :=
  { generator_loss := TExpr.genLoss m.discriminator_gen_outputs add_summaries
    discriminator_loss :=
      TExpr.disLoss m.discriminator_real_outputs m.discriminator_gen_outputs add_summaries }

/-- The TF-GAN `GANTrainOps` tuple. -/
structure GanTrainOps where
  generator_train_op : TExpr
  discriminator_train_op : TExpr

/-- `tf.contrib.gan.gan_train_ops(gan_model, gan_loss, gen_optimizer, dis_optimizer)`:
each train op minimizes the corresponding loss with the given optimizer. -/
def gan_train_ops_call (m : GanModel) (l : GanLoss)
    (gen_optimizer dis_optimizer : Optimizer) : GanTrainOps :=
  { generator_train_op := TExpr.minimize gen_optimizer l.generator_loss
    discriminator_train_op := TExpr.minimize dis_optimizer l.discriminator_loss }

/-- `tf.while_loop` / `tf.contrib.tpu.while_loop`: builds a loop graph node.
The `cond`/`body` lambdas are reified by applying them to the de Bruijn loop
variables `var 0` (the counter `i`) and `var 1` (the carried float `x`). -/
def while_loop_call (tpu : Bool) (cond : TExpr → TExpr → TExpr)
    (body : TExpr → TExpr → TExpr × TExpr) (inits : List TExpr) : TExpr :=
  TExpr.whileLoop tpu (cond (TExpr.var 0) (TExpr.var 1))
    [(body (TExpr.var 0) (TExpr.var 1)).1, (body (TExpr.var 0) (TExpr.var 1)).2] inits

/-- Estimator modes (`tf.estimator.ModeKeys`). -/
inductive Mode where
  | TRAIN
  | EVAL
  | PREDICT
deriving DecidableEq, Repr

/-- The parsed command-line arguments.  `main` passes `vars(args)` as the
`params` dict, so this record is also the `params` seen by `model_fn`. -/
structure Args where
  model_dir : String
  train_batch_size : Int
  save_checkpoints_steps : Int
  use_tpu : Bool
  tpu : Option String
deriving DecidableEq, Repr

/-- The value returned by `model_fn`: either the TPU estimator spec class or
the plain one, holding the same four fields the script fills in. -/
inductive SpecResult where
  | TPUEstimatorSpec (mode : Mode) (predictions : TExpr) (loss train_op : Option TExpr)
  | EstimatorSpec (mode : Mode) (predictions : TExpr) (loss train_op : Option TExpr)

/-- Whether the returned spec is the TPU class. -/
def SpecResult.isTPUSpec : SpecResult → Bool
  | .TPUEstimatorSpec _ _ _ _ => true
  | .EstimatorSpec _ _ _ _ => false

/-- The `predictions` field of the returned spec. -/
def SpecResult.predictions : SpecResult → TExpr
  | .TPUEstimatorSpec _ p _ _ => p
  | .EstimatorSpec _ p _ _ => p

/-- The `loss` field of the returned spec (`none` models Python `None`). -/
def SpecResult.loss : SpecResult → Option TExpr
  | .TPUEstimatorSpec _ _ l _ => l
  | .EstimatorSpec _ _ l _ => l

/-- The `train_op` field of the returned spec. -/
def SpecResult.train_op : SpecResult → Option TExpr
  | .TPUEstimatorSpec _ _ _ t => t
  | .EstimatorSpec _ _ _ t => t

/-- The `mode` field of the returned spec. -/
def SpecResult.mode : SpecResult → Mode
  | .TPUEstimatorSpec m _ _ _ => m
  | .EstimatorSpec m _ _ _ => m

/-- Direct translation of `model_fn(features, labels, mode, params)`. -/
def model_fn (features labels : TExpr) (mode : Mode) (params : Args) : SpecResult :=
  let global_step := TExpr.globalStep
  let generator_inputs := features
  let real_data := labels
  let gan_model := gan_model_call generator_fn discriminator_fn real_data generator_inputs
  let predictions := gan_model.generated_data
  let lossAndTrainOp : Option TExpr × Option TExpr :=
    if mode = Mode.TRAIN then
      let gan_loss := gan_loss_call gan_model false
      let loss := gan_loss.generator_loss
      let gen_optimizer := Optimizer.RMSProp 0.05
      let dis_optimizer := Optimizer.RMSProp 0.05
      let (gen_optimizer, dis_optimizer) :=
        if params.use_tpu then
          (Optimizer.CrossShard gen_optimizer, Optimizer.CrossShard dis_optimizer)
        else
          (gen_optimizer, dis_optimizer)
      let gan_train_ops := gan_train_ops_call gan_model gan_loss gen_optimizer dis_optimizer
      let inputs := [TExpr.constI 0, TExpr.constF 0]
      let cond := fun (i _x : TExpr) => TExpr.less i (TExpr.constI 100)
      let body := fun (i _x : TExpr) =>
        (TExpr.add i (TExpr.constI 1), gan_train_ops.discriminator_train_op)
      let dis_train_op := while_loop_call params.use_tpu cond body inputs
      let train_op := TExpr.group
        [dis_train_op, gan_train_ops.generator_train_op,
         TExpr.assignAdd global_step (TExpr.constI 1)]
      (some loss, some train_op)
    else
      (none, none)
  if params.use_tpu then
    SpecResult.TPUEstimatorSpec mode predictions lossAndTrainOp.1 lossAndTrainOp.2
  else
    SpecResult.EstimatorSpec mode predictions lossAndTrainOp.1 lossAndTrainOp.2

/-! Semantics of the discriminator while loop: the counter component of the
loop state is an integer; we evaluate the reified `cond` and the first
component of the reified `body` on it. -/

/-- Evaluate the integer counter component of a reified loop expression,
with `var 0` bound to the current counter value `i`. -/
def evalLoopVar (i : Int) : TExpr → Option Int
  | TExpr.var 0 => some i
  | TExpr.constI n => some n
  | TExpr.add a b => do
      let x ← evalLoopVar i a
      let y ← evalLoopVar i b
      return x + y
  | _ => none

/-- Evaluate a reified loop condition (a `less` comparison) with `var 0`
bound to the current counter value `i`. -/
def evalLoopCond (i : Int) : TExpr → Option Bool
  | TExpr.less a b => do
      let x ← evalLoopVar i a
      let y ← evalLoopVar i b
      return decide (x < y)
  | _ => none

/-- Number of body executions of the loop whose condition is `condE` and
whose counter update is `bodyE`, started at counter value `i`, with `fuel`
bounding the unrolling. -/
def loopCount (condE bodyE : TExpr) : Nat → Int → Option Nat
  | 0, _ => none
  | fuel + 1, i =>
      match evalLoopCond i condE with
      | some true => do
          let i2 ← evalLoopVar i bodyE
          let n ← loopCount condE bodyE fuel i2
          return n + 1
      | some false => some 0
      | none => none

/-! The `main` routine: run configs, estimators, and the trace of
estimator-level events it performs. -/

/-- `tf.contrib.tpu.TPUConfig(num_shards, iterations_per_loop)`. -/
structure TPUConfigR where
  num_shards : Int
  iterations_per_loop : Int
deriving DecidableEq, Repr

/-- The run config `main` builds: either `tf.contrib.tpu.RunConfig` (with a
cluster resolver built from `args.tpu` and a `TPUConfig`) or the plain
`tf.estimator.RunConfig`. -/
inductive RunConfigR where
  | tpuRunConfig (cluster : Option String) (model_dir : String) (tpu_config : TPUConfigR)
      (save_checkpoints_steps : Int) (save_summary_steps : Int)
  | runConfig (model_dir : String) (save_checkpoints_steps : Int) (save_summary_steps : Int)
deriving DecidableEq, Repr

/-- The estimator object `main` constructs: `tf.contrib.tpu.TPUEstimator`
or `tf.estimator.Estimator`, with the arguments of the respective call. -/
inductive EstimatorR where
  | TPUEstimator (mf : TExpr → TExpr → Mode → Args → SpecResult)
      (config : RunConfigR) (params : Args)
      (train_batch_size eval_batch_size : Int) (export_to_tpu : Bool)
  | Estimator (mf : TExpr → TExpr → Mode → Args → SpecResult)
      (config : RunConfigR) (params : Args)

/-- Whether the estimator is the TPU-backed class. -/
def EstimatorR.isTPU : EstimatorR → Bool
  | .TPUEstimator _ _ _ _ _ _ => true
  | .Estimator _ _ _ => false

/-- The run config an estimator was constructed with. -/
def EstimatorR.config : EstimatorR → RunConfigR
  | .TPUEstimator _ c _ _ _ _ => c
  | .Estimator _ c _ => c

/-- Direct translation of the branch of `main` that builds the estimator. -/
def mainEstimator (args : Args) : EstimatorR :=
  let params := args
  if args.use_tpu then
    let tpu_cluster_resolver := args.tpu
    let tpu_config : TPUConfigR :=
      { num_shards := 8
        iterations_per_loop := args.save_checkpoints_steps }
    let config := RunConfigR.tpuRunConfig tpu_cluster_resolver args.model_dir tpu_config
      args.save_checkpoints_steps 10
    EstimatorR.TPUEstimator model_fn config params args.train_batch_size 32 false
  else
    let config := RunConfigR.runConfig args.model_dir 10 10
    EstimatorR.Estimator model_fn config params

/-! The input pipeline: `train_input_fn` and its dataset AST. -/

/-- The `params` dict handed to an input function.  `TPUEstimator` populates
`train_batch_size`; the def-site default `params={}` carries neither key,
which we model as `none`. -/
structure TrainParams where
  train_batch_size : Option Int
deriving DecidableEq, Repr

/-- The `tf.data` pipeline stages the script uses, outermost stage last
applied.  `mapSetShapes` is `dataset.map(set_shapes)` with the closed-over
`batch_size`; `prefetchAutotune` is `dataset.prefetch(tf.contrib.data.AUTOTUNE)`. -/
inductive Dataset where
  | fromTensorSlices (features labels : TExpr)
  | repeatD (d : Dataset)
  | shuffle (d : Dataset) (buffer_size : Int)
  | batch (d : Dataset) (batch_size : Int) (drop_remainder : Bool)
  | mapSetShapes (d : Dataset) (batch_size : Int)
  | prefetchAutotune (d : Dataset)

/-- Direct translation of `train_input_fn(params={})`. -/
def train_input_fn (params : TrainParams) : Dataset :=
  let data_size : Nat := 100
  let noise_tensor := TExpr.randomNormal data_size INPUT_DIM
  let real_data_tensor := TExpr.randomUniform data_size OUTPUT_DIM
  let dataset := Dataset.fromTensorSlices noise_tensor real_data_tensor
  let dataset := Dataset.shuffle (Dataset.repeatD dataset) 10
  let batch_size := params.train_batch_size.getD 16
  let dataset := Dataset.batch dataset batch_size true
  let dataset := Dataset.mapSetShapes dataset batch_size
  Dataset.prefetchAutotune dataset

/-- A (possibly partially known) static tensor shape: one entry per
dimension, `none` for a statically unknown dimension. -/
abbrev Shape := List (Option Int)

/-- Static shape of the tensors the pipeline starts from. -/
def tensorShape : TExpr → Option (List Int)
  | TExpr.randomNormal rows cols => some [(rows : Int), (cols : Int)]
  | TExpr.randomUniform rows cols => some [(rows : Int), (cols : Int)]
  | _ => none

/-- Merge two dimensions as TensorFlow `merge_with` does: unknown merges
with anything, known dimensions must agree. -/
def mergeDim : Option Int → Option Int → Option (Option Int)
  | none, d => some d
  | some a, none => some (some a)
  | some a, some b => if a = b then some (some a) else none

/-- `TensorShape.merge_with`: merge two shapes of the same rank dimension
by dimension, failing on incompatible dimensions. -/
def mergeWith : Shape → Shape → Option Shape
  | [], [] => some []
  | x :: xs, y :: ys => do
      let d ← mergeDim x y
      let rest ← mergeWith xs ys
      return d :: rest
  | _, _ => none

/-- Static element shapes `(features, labels)` of a pipeline stage.
Slicing drops the leading dimension; batching prepends a statically
unknown dimension (datasets know the batch size only when the graph runs);
`set_shapes` merges with `[batch_size, None]` and sets the result. -/
def elementShapes : Dataset → Option (Shape × Shape)
  | Dataset.fromTensorSlices f l => do
      let fs ← tensorShape f
      let ls ← tensorShape l
      match fs, ls with
      | _ :: frest, _ :: lrest => some (frest.map some, lrest.map some)
      | _, _ => none
  | Dataset.repeatD d => elementShapes d
  | Dataset.shuffle d _ => elementShapes d
  | Dataset.batch d _ _ => do
      let (fs, ls) ← elementShapes d
      return (none :: fs, none :: ls)
  | Dataset.mapSetShapes d bs => do
      let (fs, ls) ← elementShapes d
      let fs2 ← mergeWith fs [some bs, none]
      let ls2 ← mergeWith ls [some bs, none]
      return (fs2, ls2)
  | Dataset.prefetchAutotune d => elementShapes d

/-- The `(batch_size, drop_remainder)` arguments of the pipeline's batch
stage, found by walking in from the outermost stage. -/
def batchArgOf : Dataset → Option (Int × Bool)
  | Dataset.fromTensorSlices _ _ => none
  | Dataset.repeatD d => batchArgOf d
  | Dataset.shuffle d _ => batchArgOf d
  | Dataset.batch _ bs dr => some (bs, dr)
  | Dataset.mapSetShapes d _ => batchArgOf d
  | Dataset.prefetchAutotune d => batchArgOf d

/-- The source tensors the pipeline slices, found at the innermost stage. -/
def sourceTensors : Dataset → Option (TExpr × TExpr)
  | Dataset.fromTensorSlices f l => some (f, l)
  | Dataset.repeatD d => sourceTensors d
  | Dataset.shuffle d _ => sourceTensors d
  | Dataset.batch d _ _ => sourceTensors d
  | Dataset.mapSetShapes d _ => sourceTensors d
  | Dataset.prefetchAutotune d => sourceTensors d

/-- The kinds of pipeline stages, used to state that the pipeline consists
only of in-memory transformations. -/
inductive DatasetOpKind where
  | fromTensorSlicesOp
  | repeatOp
  | shuffleOp
  | batchOp
  | mapOp
  | prefetchOp
deriving DecidableEq, Repr

/-- The list of pipeline stage kinds, outermost first. -/
def datasetOps : Dataset → List DatasetOpKind
  | Dataset.fromTensorSlices _ _ => [DatasetOpKind.fromTensorSlicesOp]
  | Dataset.repeatD d => DatasetOpKind.repeatOp :: datasetOps d
  | Dataset.shuffle d _ => DatasetOpKind.shuffleOp :: datasetOps d
  | Dataset.batch d _ _ => DatasetOpKind.batchOp :: datasetOps d
  | Dataset.mapSetShapes d _ => DatasetOpKind.mapOp :: datasetOps d
  | Dataset.prefetchAutotune d => DatasetOpKind.prefetchOp :: datasetOps d

/-- Runtime meaning of `batch(bs, drop_remainder=True)` on a finite stream:
cut the stream into consecutive chunks of exactly `bs` elements and drop
the incomplete remainder. -/
def batchChunks {α : Type} (bs : Nat) (l : List α) : List (List α) :=
  if h : 0 < bs ∧ bs ≤ l.length then
    List.take bs l :: batchChunks bs (List.drop bs l)
  else
    []
termination_by l.length
decreasing_by
  simp only [List.length_drop]
  omega

/-! The estimator-level event trace of `main`. -/

/-- Observable estimator-level events performed by `main`: constructing an
estimator, and calling `estimator.train(input_fn, steps)`. -/
inductive MainEvent where
  | constructEstimator (e : EstimatorR)
  | callTrain (e : EstimatorR) (input_fn : TrainParams → Dataset) (steps : Int)

/-- Whether an event is an estimator construction. -/
def MainEvent.isConstruct : MainEvent → Bool
  | .constructEstimator _ => true
  | .callTrain _ _ _ => false

/-- Whether an event is a `train` call. -/
def MainEvent.isTrainCall : MainEvent → Bool
  | .constructEstimator _ => false
  | .callTrain _ _ _ => true

/-- Direct translation of `main(args)`: build the estimator for the chosen
branch, then call `estimator.train(train_input_fn, steps=100)`. -/
def main (args : Args) : List MainEvent :=
  let estimator := mainEstimator args
  [MainEvent.constructEstimator estimator,
   MainEvent.callTrain estimator train_input_fn 100]

/-! The `__main__` block: flag parsing and the colab special case. -/

/-- The flag actions the script's argparse calls use: `type=str` (also the
untyped `--tpu`), `type=int`, and `action='store_true'`. -/
inductive FlagAction where
  | storeStr
  | storeInt
  | storeTrue
deriving DecidableEq, Repr

/-- One `parser.add_argument` call: the flag name and its action. -/
structure FlagSpec where
  name : String
  action : FlagAction
deriving DecidableEq, Repr

/-- The five `add_argument` calls of the script, in order. -/
def scriptFlags : List FlagSpec :=
  [{ name := "--model-dir", action := FlagAction.storeStr },
   { name := "--train-batch-size", action := FlagAction.storeInt },
   { name := "--save-checkpoints-steps", action := FlagAction.storeInt },
   { name := "--use-tpu", action := FlagAction.storeTrue },
   { name := "--tpu", action := FlagAction.storeStr }]

/-- The flag names the parser knows. -/
def knownFlagNames : List String := scriptFlags.map FlagSpec.name

/-- The defaults of the five flags (`--use-tpu` defaults to false,
`--tpu` to Python `None`). -/
def defaultArgs : Args :=
  { model_dir := "/tmp/tpu-template"
    train_batch_size := 16
    save_checkpoints_steps := 10
    use_tpu := false
    tpu := none }

/-- Store one value-taking flag into the args record, converting with the
flag's declared type; a failing `int` conversion is an argparse error. -/
def applyFlag (a : Args) (name value : String) : Option Args :=
  if name = "--model-dir" then
    some { a with model_dir := value }
  else if name = "--train-batch-size" then
    (value.toInt?).map fun n => { a with train_batch_size := n }
  else if name = "--save-checkpoints-steps" then
    (value.toInt?).map fun n => { a with save_checkpoints_steps := n }
  else if name = "--tpu" then
    some { a with tpu := some value }
  else
    none

/-- `parser.parse_known_args()` on a token list: known flags consume their
value (missing or ill-typed values are argparse errors, `none`); unknown
tokens are collected into the returned extras list instead of being
rejected. -/
def parse_known_args : List String → Args → Option (Args × List String)
  | [], a => some (a, [])
  | tok :: rest, a =>
      if tok = "--use-tpu" then
        parse_known_args rest { a with use_tpu := true }
      else if tok ∈ knownFlagNames then
        match rest with
        | [] => none
        | v :: rest2 => do
            let a2 ← applyFlag a tok v
            parse_known_args rest2 a2
      else
        (parse_known_args rest a).map fun p => (p.1, tok :: p.2)

/-- The notebook-environment facts the `__main__` block inspects:
whether `google.colab` is among the loaded modules, and the value of the
`COLAB_TPU_ADDR` environment variable if set. -/
structure ScriptEnv where
  colabLoaded : Bool
  colab_tpu_addr : Option String
deriving DecidableEq, Repr

/-- Direct translation of the colab special case of the `__main__` block:
under colab, overwrite `model_dir` with the hard-coded bucket, and when the
TPU runtime address is present, point `tpu` at it over gRPC and force
`use_tpu`. -/
def colab_adjust (args : Args) (env : ScriptEnv) : Args :=
  if env.colabLoaded then
    let args := { args with model_dir := "gs://your-gcs-bucket" }
    match env.colab_tpu_addr with
    | some addr =>
        let tpu_grpc := "grpc://" ++ addr
        { args with tpu := some tpu_grpc, use_tpu := true }
    | none => args
  else
    args

/-- The whole `__main__` tail after parsing: adjust the args for the
environment, then run `main` on the result. -/
def script_run (parsed : Args) (env : ScriptEnv) : List MainEvent :=
  main (colab_adjust parsed env)

/-! Error propagation: `main` in an exception monad.  Each framework call
that can raise is given an outcome; the script installs no handler, so the
first raised error is the script's result, unchanged. -/

/-- Outcomes of the fallible framework calls `main` performs: constructing
the TPU cluster resolver (TPU branch only), constructing the estimator,
and running `estimator.train`. -/
structure FrameworkOutcomes where
  resolver : Except String Unit
  estimatorConstruction : Except String Unit
  trainCall : Except String Unit

/-- `main` with fallible framework calls: the calls are made in program
order and any raised error propagates unchanged (the script has no
`try`/`except`). -/
def mainE (fw : FrameworkOutcomes) (args : Args) : Except String (List MainEvent) :=
  (if args.use_tpu then fw.resolver else Except.ok ()).bind fun _ =>
    fw.estimatorConstruction.bind fun _ =>
      fw.trainCall.map fun _ => main args

/-- The all-successful outcome. -/
def fwAllOk : FrameworkOutcomes :=
  { resolver := Except.ok ()
    estimatorConstruction := Except.ok ()
    trainCall := Except.ok () }

/-! Theorems. -/

/-- Every chunk produced by `batchChunks` has exactly the requested length:
the incomplete remainder is dropped, never emitted. -/
theorem batchChunks_length {α : Type} (bs : Nat) (l : List α) :
    ∀ c ∈ batchChunks bs l, c.length = bs := by
  have H : ∀ (n : Nat) (l : List α), l.length ≤ n → ∀ c ∈ batchChunks bs l, c.length = bs := by
    intro n
    induction n with
    | zero =>
        intro l hl c hc
        rw [batchChunks, dif_neg (by omega)] at hc
        simp at hc
    | succ n ih =>
        intro l hl c hc
        rw [batchChunks] at hc
        by_cases h : 0 < bs ∧ bs ≤ l.length
        · rw [dif_pos h] at hc
          rcases List.mem_cons.mp hc with hceq | hmem
          · subst hceq
            simp only [List.length_take]
            omega
          · exact ih (List.drop bs l) (by simp only [List.length_drop]; omega) c hmem
        · rw [dif_neg h] at hc
          simp at hc
  exact H l.length l le_rfl

/-- Claim C6: `generator_fn` applies exactly one dense layer producing
`OUTPUT_DIM = 3` outputs from its inputs; `discriminator_fn` applies exactly
one dense layer producing 1 output from its `data` argument, and its
`generator_inputs` argument is unused. -/
theorem claim_C6 :
    (∀ gi : TExpr, generator_fn gi = TExpr.dense gi OUTPUT_DIM) ∧
    OUTPUT_DIM = 3 ∧
    (∀ data gi : TExpr, discriminator_fn data gi = TExpr.dense data 1) ∧
    (∀ data gi gi' : TExpr, discriminator_fn data gi = discriminator_fn data gi') :=
  ⟨fun _ => rfl, rfl, fun _ _ => rfl, fun _ _ _ => rfl⟩

/-- Claim C9: every invocation of `train_input_fn` builds its pipeline from
freshly drawn random tensors, a normal one of shape (100, INPUT_DIM = 5) and
a uniform one of shape (100, OUTPUT_DIM = 3), and the pipeline consists only
of the in-memory stages prefetch, map, batch, shuffle, repeat and
from-tensor-slices: no stage persists or versions anything. -/
theorem claim_C9 (params : TrainParams) :
    sourceTensors (train_input_fn params) =
      some (TExpr.randomNormal 100 INPUT_DIM, TExpr.randomUniform 100 OUTPUT_DIM) ∧
    INPUT_DIM = 5 ∧ OUTPUT_DIM = 3 ∧
    datasetOps (train_input_fn params) =
      [DatasetOpKind.prefetchOp, DatasetOpKind.mapOp, DatasetOpKind.batchOp,
       DatasetOpKind.shuffleOp, DatasetOpKind.repeatOp, DatasetOpKind.fromTensorSlicesOp] :=
  ⟨rfl, rfl, rfl, rfl⟩

/-- Claim C2: for every invocation of `main`, regardless of `use_tpu`,
exactly one estimator is constructed (TPU-backed exactly when `use_tpu`),
and its `train` method is called exactly once, with `train_input_fn` and a
fixed step count of 100. -/
theorem claim_C2 (args : Args) :
    main args = [MainEvent.constructEstimator (mainEstimator args),
      MainEvent.callTrain (mainEstimator args) train_input_fn 100] ∧
    List.countP MainEvent.isConstruct (main args) = 1 ∧
    List.countP MainEvent.isTrainCall (main args) = 1 ∧
    (mainEstimator args).isTPU = args.use_tpu := by
  refine ⟨rfl, rfl, rfl, ?_⟩
  cases h : args.use_tpu <;> simp [mainEstimator, EstimatorR.isTPU, h]

/-- Claim C3: the `--save-checkpoints-steps` flag reaches the run config
only on the TPU path, where it becomes both `iterations_per_loop` of the
TPU config and `save_checkpoints_steps` of the run config; on the CPU path
the checkpoint interval is the hard-coded 10, whatever the flag's value. -/
theorem claim_C3 (args : Args) :
    (args.use_tpu = true →
      (mainEstimator args).config = RunConfigR.tpuRunConfig args.tpu args.model_dir
        { num_shards := 8, iterations_per_loop := args.save_checkpoints_steps }
        args.save_checkpoints_steps 10) ∧
    (args.use_tpu = false →
      ∀ n : Int, (mainEstimator { args with save_checkpoints_steps := n }).config =
        RunConfigR.runConfig args.model_dir 10 10) := by
  constructor
  · intro h
    simp [mainEstimator, EstimatorR.config, h]
  · intro h n
    simp [mainEstimator, EstimatorR.config, h]

/-- Witness for claim C3 at concrete arguments on both paths. -/
theorem claim_C3_witness :
    (mainEstimator { defaultArgs with use_tpu := true }).config =
      RunConfigR.tpuRunConfig none "/tmp/tpu-template"
        { num_shards := 8, iterations_per_loop := 10 } 10 10 ∧
    (mainEstimator { defaultArgs with save_checkpoints_steps := 999 }).config =
      RunConfigR.runConfig "/tmp/tpu-template" 10 10 :=
  ⟨(claim_C3 { defaultArgs with use_tpu := true }).1 rfl,
   (claim_C3 defaultArgs).2 rfl 999⟩

/-- Claim C7: when run under colab, `args.model_dir` is overwritten with the
hard-coded bucket; when additionally `COLAB_TPU_ADDR` is set, `args.tpu`
becomes the gRPC address derived from it and `args.use_tpu` is forced true;
and `main` is only called afterwards, on the adjusted args. -/
theorem claim_C7 (parsed : Args) (addr : String) :
    (colab_adjust parsed { colabLoaded := true, colab_tpu_addr := none }).model_dir =
      "gs://your-gcs-bucket" ∧
    colab_adjust parsed { colabLoaded := true, colab_tpu_addr := some addr } =
      { parsed with
        model_dir := "gs://your-gcs-bucket"
        tpu := some ("grpc://" ++ addr)
        use_tpu := true } ∧
    (∀ env : ScriptEnv, script_run parsed env = main (colab_adjust parsed env)) :=
  ⟨rfl, rfl, fun _ => rfl⟩

set_option maxRecDepth 4000 in
/-- Claim C1: in training mode, `model_fn` takes the generator loss from the
framework's `gan_loss`, wraps both RMSProp(0.05) optimizers in a cross-shard
optimizer exactly when `params.use_tpu`, builds a while loop whose condition
is `i < 100` and whose body increments `i` by 1 (so the discriminator update
body runs 100 times from `i = 0`), and groups that loop with the generator
train op and an increment of the global step by exactly 1. -/
theorem claim_C1 (features labels : TExpr) (params : Args) :
    (model_fn features labels Mode.TRAIN params).loss =
      some (gan_loss_call
        (gan_model_call generator_fn discriminator_fn labels features) false).generator_loss ∧
    (model_fn features labels Mode.TRAIN params).train_op =
      some (TExpr.group
        [TExpr.whileLoop params.use_tpu
          (TExpr.less (TExpr.var 0) (TExpr.constI 100))
          [TExpr.add (TExpr.var 0) (TExpr.constI 1),
           (gan_train_ops_call
             (gan_model_call generator_fn discriminator_fn labels features)
             (gan_loss_call
               (gan_model_call generator_fn discriminator_fn labels features) false)
             (if params.use_tpu then Optimizer.CrossShard (Optimizer.RMSProp 0.05)
              else Optimizer.RMSProp 0.05)
             (if params.use_tpu then Optimizer.CrossShard (Optimizer.RMSProp 0.05)
              else Optimizer.RMSProp 0.05)).discriminator_train_op]
          [TExpr.constI 0, TExpr.constF 0],
         (gan_train_ops_call
           (gan_model_call generator_fn discriminator_fn labels features)
           (gan_loss_call
             (gan_model_call generator_fn discriminator_fn labels features) false)
           (if params.use_tpu then Optimizer.CrossShard (Optimizer.RMSProp 0.05)
            else Optimizer.RMSProp 0.05)
           (if params.use_tpu then Optimizer.CrossShard (Optimizer.RMSProp 0.05)
            else Optimizer.RMSProp 0.05)).generator_train_op,
         TExpr.assignAdd TExpr.globalStep (TExpr.constI 1)]) ∧
    (∀ i : Int, evalLoopCond i (TExpr.less (TExpr.var 0) (TExpr.constI 100)) =
      some (decide (i < 100))) ∧
    (∀ i : Int, evalLoopVar i (TExpr.add (TExpr.var 0) (TExpr.constI 1)) = some (i + 1)) ∧
    loopCount (TExpr.less (TExpr.var 0) (TExpr.constI 100))
      (TExpr.add (TExpr.var 0) (TExpr.constI 1)) 101 0 = some 100 := by
  refine ⟨?_, ?_, fun _ => rfl, fun _ => rfl, by decide⟩ <;>
    cases h : params.use_tpu <;>
      simp [model_fn, while_loop_call, SpecResult.loss, SpecResult.train_op, h]

/-- Claim C4: `model_fn` returns a `TPUEstimatorSpec` exactly when
`params.use_tpu`; in every returned spec the predictions field is the GAN
model's generated data; and outside TRAIN mode both `loss` and `train_op`
are `None`. -/
theorem claim_C4 (features labels : TExpr) (mode : Mode) (params : Args) :
    (model_fn features labels mode params).isTPUSpec = params.use_tpu ∧
    (model_fn features labels mode params).predictions =
      (gan_model_call generator_fn discriminator_fn labels features).generated_data ∧
    (mode ≠ Mode.TRAIN →
      (model_fn features labels mode params).loss = none ∧
      (model_fn features labels mode params).train_op = none) := by
  cases mode <;> cases h : params.use_tpu <;>
    simp [model_fn, SpecResult.isTPUSpec, SpecResult.predictions,
      SpecResult.loss, SpecResult.train_op, h]

/-- Witness for claim C4 at a concrete non-TRAIN invocation. -/
theorem claim_C4_witness :
    (model_fn (TExpr.var 0) (TExpr.var 1) Mode.EVAL defaultArgs).isTPUSpec =
      defaultArgs.use_tpu ∧
    (model_fn (TExpr.var 0) (TExpr.var 1) Mode.EVAL defaultArgs).loss = none ∧
    (model_fn (TExpr.var 0) (TExpr.var 1) Mode.EVAL defaultArgs).train_op = none := by
  have h := claim_C4 (TExpr.var 0) (TExpr.var 1) Mode.EVAL defaultArgs
  exact ⟨h.1, (h.2.2 (by decide)).1, (h.2.2 (by decide)).2⟩

/-- Claim C5: the pipeline of `train_input_fn` batches with
`batch_size = params.get('train_batch_size', 16)` and `drop_remainder=True`
(so every emitted batch has exactly `batch_size` elements), and the static
element shapes after `set_shapes` are `[batch_size, 5]` for features and
`[batch_size, 3]` for labels. -/
theorem claim_C5 (params : TrainParams) :
    batchArgOf (train_input_fn params) = some (params.train_batch_size.getD 16, true) ∧
    elementShapes (train_input_fn params) =
      some ([some (params.train_batch_size.getD 16), some 5],
            [some (params.train_batch_size.getD 16), some 3]) ∧
    (∀ (bs : Nat) (l : List Int), ∀ c ∈ batchChunks bs l, c.length = bs) :=
  ⟨rfl, rfl, fun bs l => batchChunks_length bs l⟩

/-- Witness for claim C5: a concrete full batch of a concrete stream. -/
theorem claim_C5_witness :
    List.replicate 16 (0 : Int) ∈ batchChunks 16 (List.replicate 20 (0 : Int)) ∧
    (List.replicate 16 (0 : Int)).length = 16 := by
  have hmem : List.replicate 16 (0 : Int) ∈ batchChunks 16 (List.replicate 20 (0 : Int)) := by
    rw [batchChunks, dif_pos (by simp)]
    exact List.mem_cons.mpr (Or.inl (by simp [List.take_replicate]))
  exact ⟨hmem, (claim_C5 { train_batch_size := none }).2.2 16 _ _ hmem⟩

/-- Claim C8: the script's command-line surface is exactly the five flags
with their defaults (`--model-dir` '/tmp/tpu-template', `--train-batch-size`
16, `--save-checkpoints-steps` 10, `--use-tpu` toggle off, `--tpu` None),
the only environment dependence is the colab check, and unknown extra
arguments are collected rather than rejected. -/
theorem claim_C8 (t : String) (ht : t ∉ knownFlagNames) :
    scriptFlags =
      [{ name := "--model-dir", action := FlagAction.storeStr },
       { name := "--train-batch-size", action := FlagAction.storeInt },
       { name := "--save-checkpoints-steps", action := FlagAction.storeInt },
       { name := "--use-tpu", action := FlagAction.storeTrue },
       { name := "--tpu", action := FlagAction.storeStr }] ∧
    defaultArgs = { model_dir := "/tmp/tpu-template"
                    train_batch_size := 16
                    save_checkpoints_steps := 10
                    use_tpu := false
                    tpu := none } ∧
    parse_known_args [] defaultArgs = some (defaultArgs, []) ∧
    parse_known_args [t] defaultArgs = some (defaultArgs, [t]) ∧
    (∀ (a : Args) (addr : Option String),
      colab_adjust a { colabLoaded := false, colab_tpu_addr := addr } = a) := by
  have h1 : ¬ t = "--use-tpu" := by
    intro h
    subst h
    exact ht (by decide)
  refine ⟨rfl, rfl, rfl, ?_, fun a addr => rfl⟩
  simp [parse_known_args, h1, ht]

/-- Witness for claim C8 at the concrete unknown token `--bogus`. -/
theorem claim_C8_witness :
    parse_known_args ["--bogus"] defaultArgs = some (defaultArgs, ["--bogus"]) :=
  (claim_C8 "--bogus" (by decide)).2.2.2.1

/-- Claim C10: no function of the script catches, retries, or translates an
error: any error raised by a framework call is the script's result,
unchanged, and when every call succeeds `main` performs its normal trace. -/
theorem claim_C10 (fw : FrameworkOutcomes) (args : Args) (e : String) :
    (mainE fw args = Except.error e →
      fw.resolver = Except.error e ∨ fw.estimatorConstruction = Except.error e ∨
        fw.trainCall = Except.error e) ∧
    (fw.resolver = Except.ok () → fw.estimatorConstruction = Except.ok () →
      fw.trainCall = Except.error e → mainE fw args = Except.error e) ∧
    mainE fwAllOk args = Except.ok (main args) := by
  obtain ⟨r, c, t⟩ := fw
  cases h : args.use_tpu <;>
    cases r <;> cases c <;> cases t <;>
      simp_all [mainE, fwAllOk, Except.bind, Except.map]

/-- Witness for claim C10: a failing train call propagates its error. -/
theorem claim_C10_witness :
    mainE { resolver := Except.ok ()
            estimatorConstruction := Except.ok ()
            trainCall := Except.error "boom" } defaultArgs = Except.error "boom" :=
  (claim_C10 { resolver := Except.ok ()
               estimatorConstruction := Except.ok ()
               trainCall := Except.error "boom" } defaultArgs "boom").2.1 rfl rfl rfl

end TpuGanTrainer
